import Mathlib

/-!
Shallow embedding of the Mock Snowflake job-lifecycle simulator
(`app/service.py`, `app/models.py`, `app/main.py`).

The core is `get_job_status`: a wall-clock-driven phase state machine
(thresholds at 2, 5 and 8 seconds) followed, at 8+ seconds, by a
data-quality evaluator over the submitted rows (not-null check on the
`id` field, then schema-consistency of each row's field-name set against
row 0's).  Time is modelled by the rationals; a Python row
(`Dict[str, Any]`) is an association list from field names to JSON-ish
values with an explicit null.
-/

namespace MockSnowflake

/-- A JSON-ish scalar value as stored in a row; `null` models Python `None`. -/
inductive Value where
  | null
  | int (n : Int)
  | str (s : String)
  | bool (b : Bool)
deriving DecidableEq, Repr

/-- A row: a mapping from field name to value (`Dict[str, Any]`),
modelled as an association list (Python dict keys are unique). -/
def Row : Type := List (String × Value)

instance : DecidableEq Row := by unfold Row; infer_instance

/-- `LoadMode` enum from `app/models.py`. -/
inductive LoadMode where
  | APPEND
  | OVERWRITE
deriving DecidableEq, Repr

/-- `JobStatusEnum` from `app/models.py`. -/
inductive JobStatusEnum where
  | QUEUED
  | RESUMING_WAREHOUSE
  | EXECUTING
  | SUCCESS
  | FAILED
deriving DecidableEq, Repr

/-- `ErrorDetails` from `app/models.py`. -/
structure ErrorDetails where
  error_code : String
  error_message : String
deriving DecidableEq, Repr

/-- `CopyCommand` from `app/models.py` (the `min_length=1` constraint on
`rows` is enforced by the serving layer, not by this type). -/
structure CopyCommand where
  table_name : String
  load_mode : LoadMode
  rows : List Row
deriving DecidableEq

/-- The dict returned by `get_job_status`, matching the `JobStatus`
Pydantic model (the service always populates `message`). -/
structure JobStatus where
  job_id : String
  status : JobStatusEnum
  rows_loaded : Option Nat
  error_details : Option ErrorDetails
  message : String
deriving DecidableEq, Repr

/-- One entry of `_JOB_STORE`: `{"start_time": ..., "command": ...}`. -/
structure JobRecord where
  start_time : ℚ
  command : CopyCommand
deriving DecidableEq

/-- The in-memory job registry `_JOB_STORE`, keyed by job id. -/
def JobStore : Type := List (String × JobRecord)

instance : DecidableEq JobStore := by unfold JobStore; infer_instance

/-- `_JOB_STORE.get(job_id)`: dict lookup, `None` when absent. -/
def storeGet (store : JobStore) (job_id : String) : Option JobRecord :=
  (store.find? (fun p => p.1 == job_id)).map (·.2)

/-- The set of keys of a row (`set(row.keys())`), as a duplicate-free list. -/
def rowKeys (row : Row) : List String :=
  (row.map (·.1)).dedup

/-- `row.get(k)`: `None` when the key is absent. -/
def rowGet (row : Row) (k : String) : Option Value :=
  (row.find? (fun p => p.1 == k)).map (·.2)

/-- The per-row condition of rule 1:
`"id" not in row or row.get("id") is None`. -/
def idMissingOrNull (row : Row) : Bool :=
  !(row.any (fun p => p.1 == "id")) || (rowGet row "id" == some Value.null)

/-- Set equality of two key sets (`row_keys == first_row_keys` on Python sets). -/
def keysEqSet (a b : List String) : Bool :=
  a.all (fun k => b.contains k) && b.all (fun k => a.contains k)

/-- Insert a string into an ascending list, keeping it ascending. -/
def insertSorted (s : String) : List String → List String
  | [] => [s]
  | t :: ts => if s ≤ t then s :: t :: ts else t :: insertSorted s ts

/-- Python `sorted` on a list of strings (ascending lexicographic order). -/
def sortKeys : List String → List String
  | [] => []
  | s :: ss => insertSorted s (sortKeys ss)

/-- Python `repr` of a simple string, as rendered inside `str(list)`:
the string between single quotes. -/
def pyRepr (s : String) : String := "\x27" ++ s ++ "\x27"

/-- Python `str` of a list of strings: `[` … `]` with `, `-separated reprs. -/
def pyListStr (l : List String) : String :=
  "[" ++ String.intercalate ", " (l.map pyRepr) ++ "]"

/-- The `error_parts` list built for a schema mismatch: each part included
only when its key list is non-empty. -/
def errorParts (missing extra : List String) : List String :=
  (if missing.isEmpty then [] else ["missing fields: " ++ pyListStr missing]) ++
  (if extra.isEmpty then [] else ["extra fields: " ++ pyListStr extra])

/-- The `SCHEMA_MISMATCH` error message:
`f"Row at index {idx} has schema mismatch: {', '.join(error_parts)}"`. -/
def schemaMsg (idx : Nat) (missing extra : List String) : String :=
  "Row at index " ++ toString idx ++ " has schema mismatch: " ++
    String.intercalate ", " (errorParts missing extra)

/-- The rule-2 loop `for idx, row in enumerate(rows[1:], start=1)`:
scan `rest` for the first row whose key set differs from `firstKeys`,
returning its index together with the sorted missing and extra key lists. -/
def schemaScan (firstKeys : List String) (idx : Nat) :
    List Row → Option (Nat × List String × List String)
  | [] => none
  | row :: rest =>
    if keysEqSet (rowKeys row) firstKeys then
      schemaScan firstKeys (idx + 1) rest
    else
      some (idx,
        sortKeys (firstKeys.filter (fun k => !((rowKeys row).contains k))),
        sortKeys ((rowKeys row).filter (fun k => !(firstKeys.contains k))))

/-- The data-quality evaluator: lines 67–112 of `app/service.py`
(the `elapsed >= 8` terminal branch of `get_job_status`). -/
def dqEvaluate (job_id : String) (rows : List Row) : JobStatus :=
  if rows.any idMissingOrNull then
    { job_id := job_id
      status := JobStatusEnum.FAILED
      rows_loaded := none
      error_details := some
        { error_code := "NOT_NULL_VIOLATION"
          error_message := "Column \x27id\x27 is missing." }
      message := "Data Quality Failure" }
  else
    match rows with
    | [] =>
      { job_id := job_id
        status := JobStatusEnum.SUCCESS
        rows_loaded := some rows.length
        error_details := none
        message := "Load success" }
    | r0 :: rest =>
      match schemaScan (rowKeys r0) 1 rest with
      | some (idx, missing, extra) =>
        { job_id := job_id
          status := JobStatusEnum.FAILED
          rows_loaded := none
          error_details := some
            { error_code := "SCHEMA_MISMATCH"
              error_message := schemaMsg idx missing extra }
          message := "Data Quality Failure" }
      | none =>
        { job_id := job_id
          status := JobStatusEnum.SUCCESS
          rows_loaded := some rows.length
          error_details := none
          message := "Load success" }

/-- Lines 42–112 of `get_job_status` in `app/service.py`, as a function of
the elapsed time `elapsed = now - job["start_time"]` and the stored rows. -/
def derive (job_id : String) (rows : List Row) (elapsed : ℚ) : JobStatus :=
  if elapsed < 2 then
    { job_id := job_id
      status := JobStatusEnum.QUEUED
      rows_loaded := none
      error_details := none
      message := "Job submitted successfully" }
  else if elapsed < 5 then
    { job_id := job_id
      status := JobStatusEnum.RESUMING_WAREHOUSE
      rows_loaded := none
      error_details := none
      message := "Waking up warehouse" }
  else if elapsed < 8 then
    { job_id := job_id
      status := JobStatusEnum.EXECUTING
      rows_loaded := none
      error_details := none
      message := "Running query" }
  else
    dqEvaluate job_id rows

/-- `get_job_status` from `app/service.py`: look the job up in the registry
and derive its status from the elapsed time; `None` for an unknown id. -/
def get_job_status (store : JobStore) (now : ℚ) (job_id : String) :
    Option JobStatus :=
  match storeGet store job_id with
  | none => none
  | some job => some (derive job_id job.command.rows (now - job.start_time))

/-- `submit_job` from `app/service.py`, with the generated uuid and the
current time passed explicitly: store the record and return the job id. -/
def submit_job (store : JobStore) (gen_id : String) (now : ℚ)
    (command : CopyCommand) : String × JobStore :=
  (gen_id, (gen_id, { start_time := now, command := command }) :: store)

/-- The stateful view of a status query: it reads the registry and performs
no write, so the registry is threaded through unchanged. -/
def get_job_status_st (now : ℚ) (job_id : String) (store : JobStore) :
    Option JobStatus × JobStore :=
  (get_job_status store now job_id, store)

/-- Run a sequence of status queries (each a `(now, job_id)` pair) against
the registry, threading the registry state through every call. -/
def runQueries (store : JobStore) : List (ℚ × String) → JobStore
  | [] => store
  | q :: qs => runQueries (get_job_status_st q.1 q.2 store).2 qs

/-- `monitor_job` from `app/main.py`: an absent status becomes an
HTTP 404 error; a present one is returned as-is. -/
def monitor_job (store : JobStore) (now : ℚ) (job_id : String) :
    Except (Nat × String) JobStatus :=
  match get_job_status store now job_id with
  | none => Except.error (404, "Job ID not found")
  | some s => Except.ok s

/-- The fixed ordering on phases used by the spec:
QUEUED < RESUMING_WAREHOUSE < EXECUTING < terminal (SUCCESS/FAILED). -/
def phaseRank : JobStatusEnum → Nat
  | JobStatusEnum.QUEUED => 0
  | JobStatusEnum.RESUMING_WAREHOUSE => 1
  | JobStatusEnum.EXECUTING => 2
  | JobStatusEnum.SUCCESS => 3
  | JobStatusEnum.FAILED => 3

/-! ### Helper lemmas about the evaluator and the phase machine -/

/-- During `[0, 2)` the derived record is the fixed QUEUED record. -/
theorem derive_queued (job_id : String) (rows : List Row) (t : ℚ) (h : t < 2) :
    derive job_id rows t =
      { job_id := job_id, status := JobStatusEnum.QUEUED, rows_loaded := none
        error_details := none, message := "Job submitted successfully" } := by
  simp [derive, h]

/-- During `[2, 5)` the derived record is the fixed RESUMING_WAREHOUSE record. -/
theorem derive_resuming (job_id : String) (rows : List Row) (t : ℚ)
    (h2 : 2 ≤ t) (h5 : t < 5) :
    derive job_id rows t =
      { job_id := job_id, status := JobStatusEnum.RESUMING_WAREHOUSE, rows_loaded := none
        error_details := none, message := "Waking up warehouse" } := by
  simp [derive, not_lt.mpr h2, h5]

/-- During `[5, 8)` the derived record is the fixed EXECUTING record. -/
theorem derive_executing (job_id : String) (rows : List Row) (t : ℚ)
    (h5 : 5 ≤ t) (h8 : t < 8) :
    derive job_id rows t =
      { job_id := job_id, status := JobStatusEnum.EXECUTING, rows_loaded := none
        error_details := none, message := "Running query" } := by
  have h2 : ¬ t < 2 := not_lt.mpr (le_trans (by norm_num) h5)
  simp [derive, h2, not_lt.mpr h5, h8]

/-- At 8 seconds and beyond, `derive` hands control to the data-quality
evaluator. -/
theorem derive_terminal (job_id : String) (rows : List Row) (t : ℚ) (h : 8 ≤ t) :
    derive job_id rows t = dqEvaluate job_id rows := by
  have h2 : ¬ t < 2 := not_lt.mpr (le_trans (by norm_num) h)
  have h5 : ¬ t < 5 := not_lt.mpr (le_trans (by norm_num) h)
  have h8 : ¬ t < 8 := not_lt.mpr h
  simp [derive, h2, h5, h8]

/-- Rule 1: any row with a missing or null `id` yields the fixed
NOT_NULL_VIOLATION failure record. -/
theorem dq_notnull (job_id : String) (rows : List Row)
    (h : rows.any idMissingOrNull = true) :
    dqEvaluate job_id rows =
      { job_id := job_id, status := JobStatusEnum.FAILED, rows_loaded := none
        error_details := some
          { error_code := "NOT_NULL_VIOLATION"
            error_message := "Column \x27id\x27 is missing." }
        message := "Data Quality Failure" } := by
  simp [dqEvaluate, h]

/-- The schema scan finds nothing when every scanned row's key set matches
the reference key set. -/
theorem schemaScan_none (fk : List String) :
    ∀ (rest : List Row) (i : Nat),
      (∀ r ∈ rest, keysEqSet (rowKeys r) fk = true) →
      schemaScan fk i rest = none
  | [], _, _ => rfl
  | row :: rs, i, h => by
    have h0 : keysEqSet (rowKeys row) fk = true := h row (List.mem_cons_self row rs)
    simp only [schemaScan, h0, if_true]
    exact schemaScan_none fk rs (i + 1) (fun r hr => h r (List.mem_cons_of_mem row hr))

/-- The schema scan reports the least mismatching position: if position `j`
mismatches and every earlier position matches, the scan started at index `i`
returns index `i + j` with the sorted missing and extra key lists of row `j`. -/
theorem schemaScan_least (fk : List String) :
    ∀ (rest : List Row) (i j : Nat) (hj : j < rest.length),
      keysEqSet (rowKeys (rest.get ⟨j, hj⟩)) fk = false →
      (∀ k (hk : k < rest.length), k < j →
          keysEqSet (rowKeys (rest.get ⟨k, hk⟩)) fk = true) →
      schemaScan fk i rest = some (i + j,
        sortKeys (fk.filter (fun s => !((rowKeys (rest.get ⟨j, hj⟩)).contains s))),
        sortKeys ((rowKeys (rest.get ⟨j, hj⟩)).filter (fun s => !(fk.contains s))))
  | [], _, j, hj => absurd hj (Nat.not_lt_zero j)
  | row :: rs, i, 0, hj => fun hmis _ => by
    simp only [List.get] at hmis ⊢
    simp [schemaScan, hmis]
  | row :: rs, i, j + 1, hj => fun hmis hlt => by
    have h0 : keysEqSet (rowKeys row) fk = true :=
      hlt 0 (Nat.succ_pos rs.length) (Nat.succ_pos j)
    have hj' : j < rs.length := Nat.lt_of_succ_lt_succ hj
    have hget : (row :: rs).get ⟨j + 1, hj⟩ = rs.get ⟨j, hj'⟩ := rfl
    have harr : i + (j + 1) = i + 1 + j := by omega
    rw [hget, harr]
    simp only [schemaScan, h0, if_true]
    exact schemaScan_least fk rs (i + 1) j hj' hmis
      (fun k hk hkj => hlt (k + 1) (Nat.succ_lt_succ hk) (Nat.succ_lt_succ hkj))

/-- When rule 1 passes and all rows share row 0's key set, the evaluator
returns the fixed SUCCESS record with the full row count. -/
theorem dq_success (job_id : String) (r0 : Row) (rest : List Row)
    (hnn : (r0 :: rest).any idMissingOrNull = false)
    (hsch : ∀ r ∈ rest, keysEqSet (rowKeys r) (rowKeys r0) = true) :
    dqEvaluate job_id (r0 :: rest) =
      { job_id := job_id, status := JobStatusEnum.SUCCESS
        rows_loaded := some (rest.length + 1)
        error_details := none, message := "Load success" } := by
  simp only [dqEvaluate, hnn, Bool.false_eq_true, if_false]
  rw [schemaScan_none (rowKeys r0) rest 1 hsch]
  simp

/-- Every evaluator result is terminal: its status is SUCCESS or FAILED,
so its phase rank is 3. -/
theorem dq_rank (job_id : String) (rows : List Row) :
    phaseRank (dqEvaluate job_id rows).status = 3 := by
  unfold dqEvaluate
  split
  · rfl
  · cases rows with
    | nil => rfl
    | cons r0 rest =>
      cases h : schemaScan (rowKeys r0) 1 rest with
      | none => simp [h, phaseRank]
      | some v =>
        obtain ⟨idx, missing, extra⟩ := v
        simp [h, phaseRank]

/-- The phase rank of a derived status as a function of elapsed time alone. -/
theorem rank_derive (job_id : String) (rows : List Row) (t : ℚ) :
    phaseRank (derive job_id rows t).status =
      if t < 2 then 0 else if t < 5 then 1 else if t < 8 then 2 else 3 := by
  by_cases h2 : t < 2
  · rw [derive_queued job_id rows t h2]; simp [h2, phaseRank]
  by_cases h5 : t < 5
  · rw [derive_resuming job_id rows t (not_lt.mp h2) h5]; simp [h2, h5, phaseRank]
  by_cases h8 : t < 8
  · rw [derive_executing job_id rows t (not_lt.mp h5) h8]; simp [h2, h5, h8, phaseRank]
  · rw [derive_terminal job_id rows t (not_lt.mp h8)]
    simp [h2, h5, h8, dq_rank]

/-- The registry after any sequence of status queries is the registry
unchanged. -/
theorem runQueries_id (qs : List (ℚ × String)) :
    ∀ store : JobStore, runQueries store qs = store := by
  induction qs with
  | nil => intro store; rfl
  | cons q qs ih => intro store; exact ih store

/-- The evaluator's status/field invariant: `rows_loaded` is present exactly
on SUCCESS, `error_details` exactly on FAILED. -/
theorem dq_invariant (job_id : String) (rows : List Row) :
    ((dqEvaluate job_id rows).rows_loaded.isSome = true ↔
      (dqEvaluate job_id rows).status = JobStatusEnum.SUCCESS) ∧
    ((dqEvaluate job_id rows).error_details.isSome = true ↔
      (dqEvaluate job_id rows).status = JobStatusEnum.FAILED) := by
  unfold dqEvaluate
  split
  · simp
  · cases rows with
    | nil => simp
    | cons r0 rest =>
      cases h : schemaScan (rowKeys r0) 1 rest with
      | none => simp [h]
      | some v =>
        obtain ⟨idx, missing, extra⟩ := v
        simp [h]

/-! ### Claim theorems -/

/-- C1: the derived status depends only on elapsed time, with thresholds
inclusive at 2, 5 and 8 seconds: `[0,2)` is QUEUED, `[2,5)` is
RESUMING_WAREHOUSE, `[5,8)` is EXECUTING, and at 8 seconds or more the
result is the data-quality evaluator's, whose status is SUCCESS or FAILED. -/
theorem phase_thresholds (job_id : String) (rows : List Row) (t : ℚ) :
    (0 ≤ t → t < 2 → (derive job_id rows t).status = JobStatusEnum.QUEUED) ∧
    (2 ≤ t → t < 5 → (derive job_id rows t).status = JobStatusEnum.RESUMING_WAREHOUSE) ∧
    (5 ≤ t → t < 8 → (derive job_id rows t).status = JobStatusEnum.EXECUTING) ∧
    (8 ≤ t → derive job_id rows t = dqEvaluate job_id rows ∧
      ((derive job_id rows t).status = JobStatusEnum.SUCCESS ∨
        (derive job_id rows t).status = JobStatusEnum.FAILED)) := by
  refine ⟨fun _ h => ?_, fun h2 h5 => ?_, fun h5 h8 => ?_, fun h8 => ?_⟩
  · rw [derive_queued job_id rows t h]
  · rw [derive_resuming job_id rows t h2 h5]
  · rw [derive_executing job_id rows t h5 h8]
  · refine ⟨derive_terminal job_id rows t h8, ?_⟩
    rw [derive_terminal job_id rows t h8]
    have hr := dq_rank job_id rows
    cases hs : (dqEvaluate job_id rows).status <;>
      rw [hs] at hr <;> simp_all [phaseRank]

/-- Witness for C1 at `t = 9`: the terminal branch applies. -/
theorem phase_thresholds_witness :
    derive "j" [[("id", Value.int 1)]] 9 = dqEvaluate "j" [[("id", Value.int 1)]] ∧
      ((derive "j" [[("id", Value.int 1)]] 9).status = JobStatusEnum.SUCCESS ∨
        (derive "j" [[("id", Value.int 1)]] 9).status = JobStatusEnum.FAILED) :=
  (phase_thresholds "j" [[("id", Value.int 1)]] 9).2.2.2 (by norm_num)

/-- C2: at 8+ seconds, a row sequence containing a row whose `id` is absent
or null yields FAILED with error code NOT_NULL_VIOLATION, the fixed message
naming the `id` column, and `rows_loaded` absent. -/
theorem notnull_failed (job_id : String) (rows : List Row) (t : ℚ)
    (ht : 8 ≤ t) (h : rows.any idMissingOrNull = true) :
    derive job_id rows t =
      { job_id := job_id, status := JobStatusEnum.FAILED, rows_loaded := none
        error_details := some
          { error_code := "NOT_NULL_VIOLATION"
            error_message := "Column \x27id\x27 is missing." }
        message := "Data Quality Failure" } := by
  rw [derive_terminal job_id rows t ht, dq_notnull job_id rows h]

/-- Witness for C2: the spec's example `[{"name": "a"}]` at `t = 8`. -/
theorem notnull_failed_witness :
    derive "j" [[("name", Value.str "a")]] 8 =
      { job_id := "j", status := JobStatusEnum.FAILED, rows_loaded := none
        error_details := some
          { error_code := "NOT_NULL_VIOLATION"
            error_message := "Column \x27id\x27 is missing." }
        message := "Data Quality Failure" } :=
  notnull_failed "j" [[("name", Value.str "a")]] 8 (by norm_num) (by decide)

/-- C3: at 8+ seconds, with the not-null rule passing, the first row of the
tail whose key set differs from row 0's (position `j` of the tail, i.e.
zero-based row index `j + 1`) determines the result: FAILED with error code
SCHEMA_MISMATCH, the message naming that index, the sorted missing-field
list and the sorted extra-field list (each part present only if non-empty). -/
theorem schema_mismatch_reports_least (job_id : String) (r0 : Row)
    (rest : List Row) (t : ℚ) (j : Nat) (ht : 8 ≤ t)
    (hnn : (r0 :: rest).any idMissingOrNull = false)
    (hj : j < rest.length)
    (hmis : keysEqSet (rowKeys (rest.get ⟨j, hj⟩)) (rowKeys r0) = false)
    (hleast : ∀ k (hk : k < rest.length), k < j →
        keysEqSet (rowKeys (rest.get ⟨k, hk⟩)) (rowKeys r0) = true) :
    derive job_id (r0 :: rest) t =
      { job_id := job_id, status := JobStatusEnum.FAILED, rows_loaded := none
        error_details := some
          { error_code := "SCHEMA_MISMATCH"
            error_message := schemaMsg (j + 1)
              (sortKeys ((rowKeys r0).filter
                (fun s => !((rowKeys (rest.get ⟨j, hj⟩)).contains s))))
              (sortKeys ((rowKeys (rest.get ⟨j, hj⟩)).filter
                (fun s => !((rowKeys r0).contains s)))) }
        message := "Data Quality Failure" } := by
  rw [derive_terminal _ _ _ ht]
  have hscan := schemaScan_least (rowKeys r0) rest 1 j hj hmis hleast
  rw [Nat.add_comm 1 j] at hscan
  simp [dqEvaluate, hnn, hscan]

/-- Witness for C3: the spec's example `[{"id":1,"name":"a"},{"id":2}]` at
`t = 8` reports row index 1 with missing field `name`. -/
theorem schema_mismatch_witness :
    derive "j" [[("id", Value.int 1), ("name", Value.str "a")],
        [("id", Value.int 2)]] 8 =
      { job_id := "j", status := JobStatusEnum.FAILED, rows_loaded := none
        error_details := some
          { error_code := "SCHEMA_MISMATCH"
            error_message :=
              "Row at index 1 has schema mismatch: missing fields: [\x27name\x27]" }
        message := "Data Quality Failure" } := by
  have h := schema_mismatch_reports_least "j"
    [("id", Value.int 1), ("name", Value.str "a")] [[("id", Value.int 2)]] 8 0
    (by norm_num) (by decide) (by decide) (by decide)
    (fun k hk hkj => absurd hkj (Nat.not_lt_zero k))
  exact h.trans (by decide)

/-- C4: at 8+ seconds, when every row has a non-null `id` and every tail row
shares row 0's key set, the result is SUCCESS with `rows_loaded` equal to
the total row count and no error details. -/
theorem success_all_checks (job_id : String) (r0 : Row) (rest : List Row)
    (t : ℚ) (ht : 8 ≤ t)
    (hnn : (r0 :: rest).any idMissingOrNull = false)
    (hsch : ∀ r ∈ rest, keysEqSet (rowKeys r) (rowKeys r0) = true) :
    derive job_id (r0 :: rest) t =
      { job_id := job_id, status := JobStatusEnum.SUCCESS
        rows_loaded := some (r0 :: rest).length
        error_details := none, message := "Load success" } := by
  rw [derive_terminal _ _ _ ht]
  exact dq_success job_id r0 rest hnn hsch

/-- Witness for C4: the spec's example `[{"id":1},{"id":2}]` at `t = 8`
loads 2 rows. -/
theorem success_all_checks_witness :
    derive "j" [[("id", Value.int 1)], [("id", Value.int 2)]] 8 =
      { job_id := "j", status := JobStatusEnum.SUCCESS, rows_loaded := some 2
        error_details := none, message := "Load success" } := by
  have h := success_all_checks "j" [("id", Value.int 1)] [[("id", Value.int 2)]] 8
    (by norm_num) (by decide) (by decide)
  exact h.trans (by decide)

/-- C5: rule order with short-circuiting: when the rows contain both a row
with a missing/null `id` and a row whose key set mismatches row 0's, the
reported error is NOT_NULL_VIOLATION and never SCHEMA_MISMATCH. -/
theorem rule_order_short_circuits (job_id : String) (rows : List Row) (t : ℚ)
    (ht : 8 ≤ t)
    (hnn : rows.any idMissingOrNull = true)
    (hsch : ∃ (r0 : Row) (rest : List Row), rows = r0 :: rest ∧
        ∃ r ∈ rest, keysEqSet (rowKeys r) (rowKeys r0) = false) :
    (derive job_id rows t).error_details =
      some { error_code := "NOT_NULL_VIOLATION"
             error_message := "Column \x27id\x27 is missing." } ∧
    ∀ m : String, (derive job_id rows t).error_details ≠
      some { error_code := "SCHEMA_MISMATCH", error_message := m } := by
  rw [derive_terminal job_id rows t ht, dq_notnull job_id rows hnn]
  refine ⟨rfl, fun m h => ?_⟩
  simp only [Option.some.injEq] at h
  have hc := congrArg ErrorDetails.error_code h
  simp at hc

/-- Witness for C5: one row with an `id`, one row both missing `id` and with
a different key set; NOT_NULL_VIOLATION wins. -/
theorem rule_order_short_circuits_witness :
    (derive "j" [[("id", Value.int 1)], [("name", Value.str "a")]] 8).error_details =
      some { error_code := "NOT_NULL_VIOLATION"
             error_message := "Column \x27id\x27 is missing." } :=
  (rule_order_short_circuits "j" [[("id", Value.int 1)], [("name", Value.str "a")]] 8
    (by norm_num) (by decide)
    ⟨[("id", Value.int 1)], [[("name", Value.str "a")]], rfl,
      [("name", Value.str "a")], by decide, by decide⟩).1

/-- C6: the derived phase is monotone non-decreasing in elapsed time in the
ordering QUEUED < RESUMING_WAREHOUSE < EXECUTING < terminal, and once the
status is terminal (SUCCESS or FAILED) it is unchanged at every later time. -/
theorem phase_monotone (job_id : String) (rows : List Row) (t1 t2 : ℚ)
    (h : t1 < t2) :
    phaseRank (derive job_id rows t1).status ≤
      phaseRank (derive job_id rows t2).status ∧
    (((derive job_id rows t1).status = JobStatusEnum.SUCCESS ∨
        (derive job_id rows t1).status = JobStatusEnum.FAILED) →
      derive job_id rows t2 = derive job_id rows t1) := by
  constructor
  · rw [rank_derive, rank_derive]
    split_ifs <;> first | omega | (exfalso; linarith)
  · intro hterm
    have h8 : ¬ t1 < 8 := by
      intro hlt
      by_cases a2 : t1 < 2
      · rw [derive_queued job_id rows t1 a2] at hterm; simp at hterm
      by_cases a5 : t1 < 5
      · rw [derive_resuming job_id rows t1 (not_lt.mp a2) a5] at hterm
        simp at hterm
      · rw [derive_executing job_id rows t1 (not_lt.mp a5) hlt] at hterm
        simp at hterm
    rw [derive_terminal job_id rows t1 (not_lt.mp h8),
      derive_terminal job_id rows t2 (le_trans (not_lt.mp h8) h.le)]

/-- Witness for C6 at `t1 = 1 < t2 = 9`. -/
theorem phase_monotone_witness :
    phaseRank (derive "j" [] 1).status ≤ phaseRank (derive "j" [] 9).status :=
  (phase_monotone "j" [] 1 9 (by norm_num)).1

/-- C7: in every derived JobStatus, `rows_loaded` is present iff the status
is SUCCESS and `error_details` is present iff the status is FAILED; below
8 seconds both are absent and the message is the phase's fixed string. -/
theorem status_field_invariant (job_id : String) (rows : List Row) (t : ℚ) :
    ((derive job_id rows t).rows_loaded.isSome = true ↔
      (derive job_id rows t).status = JobStatusEnum.SUCCESS) ∧
    ((derive job_id rows t).error_details.isSome = true ↔
      (derive job_id rows t).status = JobStatusEnum.FAILED) ∧
    (t < 8 → (derive job_id rows t).rows_loaded = none ∧
      (derive job_id rows t).error_details = none ∧
      (derive job_id rows t).message =
        if t < 2 then "Job submitted successfully"
        else if t < 5 then "Waking up warehouse"
        else "Running query") := by
  by_cases h2 : t < 2
  · rw [derive_queued job_id rows t h2]
    exact ⟨by simp, by simp, fun _ => ⟨rfl, rfl, by simp [h2]⟩⟩
  by_cases h5 : t < 5
  · rw [derive_resuming job_id rows t (not_lt.mp h2) h5]
    exact ⟨by simp, by simp, fun _ => ⟨rfl, rfl, by simp [h2, h5]⟩⟩
  by_cases h8 : t < 8
  · rw [derive_executing job_id rows t (not_lt.mp h5) h8]
    exact ⟨by simp, by simp, fun _ => ⟨rfl, rfl, by simp [h2, h5]⟩⟩
  · rw [derive_terminal job_id rows t (not_lt.mp h8)]
    exact ⟨(dq_invariant job_id rows).1, (dq_invariant job_id rows).2,
      fun hc => absurd hc h8⟩

/-- Witness for C7 at `t = 1`: the pre-terminal part applies. -/
theorem status_field_invariant_witness :
    (derive "j" [] 1).rows_loaded = none ∧
    (derive "j" [] 1).error_details = none ∧
    (derive "j" [] 1).message =
      if (1 : ℚ) < 2 then "Job submitted successfully"
      else if (1 : ℚ) < 5 then "Waking up warehouse"
      else "Running query" :=
  (status_field_invariant "j" [] 1).2.2 (by norm_num)

/-- C8: for an identifier absent from the registry, a status query returns
`none` (never an exception), and the HTTP layer maps this absence to a 404
not-found condition. -/
theorem unknown_id_absent (store : JobStore) (now : ℚ) (job_id : String)
    (h : storeGet store job_id = none) :
    get_job_status store now job_id = none ∧
    monitor_job store now job_id = Except.error (404, "Job ID not found") := by
  have hg : get_job_status store now job_id = none := by
    unfold get_job_status
    rw [h]
  exact ⟨hg, by unfold monitor_job; rw [hg]⟩

/-- Witness for C8: after submitting job "a", querying job "b" is absent. -/
theorem unknown_id_absent_witness :
    get_job_status
        (submit_job [] "a" 0 ⟨"t", LoadMode.APPEND, [[("id", Value.int 1)]]⟩).2
        1 "b" = none ∧
    monitor_job
        (submit_job [] "a" 0 ⟨"t", LoadMode.APPEND, [[("id", Value.int 1)]]⟩).2
        1 "b" = Except.error (404, "Job ID not found") :=
  unknown_id_absent
    (submit_job [] "a" 0 ⟨"t", LoadMode.APPEND, [[("id", Value.int 1)]]⟩).2
    1 "b" (by decide)

/-- C9: a status query is read-only and derivation is deterministic: the
stateful query returns the registry unchanged, any sequence of queries
leaves the registry intact, and a query's result — and every stored record —
is the same before and after any number of other queries. -/
theorem query_readonly_deterministic (store : JobStore) (now : ℚ)
    (job_id : String) (qs : List (ℚ × String)) :
    (get_job_status_st now job_id store).2 = store ∧
    runQueries store qs = store ∧
    get_job_status (runQueries store qs) now job_id =
      get_job_status store now job_id ∧
    storeGet (runQueries store qs) job_id = storeGet store job_id := by
  refine ⟨rfl, runQueries_id qs store, ?_, ?_⟩ <;> rw [runQueries_id qs store]

/-- C10: a stored job with an empty row sequence (which `CopyCommand`'s
`min_length=1` is supposed to rule out) still yields, at 8+ seconds, a
SUCCESS with `rows_loaded = 0`: both data-quality checks pass vacuously. -/
theorem empty_rows_success (job_id : String) (t : ℚ) (ht : 8 ≤ t) :
    derive job_id [] t =
      { job_id := job_id, status := JobStatusEnum.SUCCESS, rows_loaded := some 0
        error_details := none, message := "Load success" } := by
  rw [derive_terminal job_id [] t ht]
  rfl

/-- Witness for C10 at `t = 8`. -/
theorem empty_rows_success_witness :
    derive "j" [] 8 =
      { job_id := "j", status := JobStatusEnum.SUCCESS, rows_loaded := some 0
        error_details := none, message := "Load success" } :=
  empty_rows_success "j" 8 (by norm_num)

end MockSnowflake
